import Mathlib

/-!
Verification of the voice-chat core of `automatizor-agent`:
`src/hooks/useAudioRecorder.ts` and `src/hooks/useVoiceChat.ts`.

The hooks are embedded as explicit state-passing functions.  Every
platform call (`expo-av` / `expo-speech` / permission prompts) may either
resolve or reject; the environment records one outcome per kind of call
(`none` / `false` meaning the call throws).  The body of each hook
function is modelled as an `Except`-valued computation whose error case
carries the intermediate state and trace at the throw point; the exported
operation applies the `catch` handler of the source.  Platform calls that
complete append an event to a trace, so call-ordering properties can be
stated on the trace.
-/

namespace Automatizor

/-- Observable platform audio calls, in the order they complete. -/
inductive Ev where
  | stopAndUnload
  | setAudioMode (allowsRecording : Bool)
  | createRecording
  | speechStop
  | soundStop
  | soundUnload
  | wait (ms : Nat)
  | speak (text : String)
  | alert
  deriving DecidableEq, Repr

/-- An `Audio.Recording` handle; `getURI()` may return null, modelled as `none`. -/
structure RecHandle where
  uri : Option String
  deriving DecidableEq, Repr

/-- State of `useAudioRecorder`: the two `useState` fields, the permission
flag, and the two refs (`recordingRef`, `intervalRef`). -/
structure RecState where
  isRecording : Bool
  recordingDuration : Nat
  hasPermission : Option Bool
  recordingRef : Option RecHandle
  intervalActive : Bool
  deriving DecidableEq, Repr

/-- Outcomes of the recorder's platform calls.  `none` / `false` means the
call rejects; otherwise it resolves with the recorded value. -/
structure REnv where
  /-- `Audio.requestPermissionsAsync`: `some b` resolves with granted = `b`. -/
  reqPerm : Option Bool
  /-- `Audio.setAudioModeAsync` with `allowsRecordingIOS: true`. -/
  setModeRec : Bool
  /-- `Audio.Recording.createAsync`: resolves with a handle whose eventual URI is given. -/
  createRec : Option (Option String)
  /-- `recording.stopAndUnloadAsync`. -/
  stopUnload : Bool
  /-- `Audio.setAudioModeAsync` with `allowsRecordingIOS: false`. -/
  setModeNeutral : Bool
  deriving DecidableEq, Repr

/-- A run of a recorder operation body: `.error` is an exception reaching the
operation's `catch`, carrying the state and trace at the throw point. -/
abbrev RecRun (α : Type) := Except (RecState × List Ev) (α × RecState × List Ev)

/-- Body of `requestPermissions` (lines 26-50): the permission prompt; on
denial an alert with a retry option is shown and `false` is returned. -/
def requestPermissionsBody (env : REnv) (s : RecState) : RecRun Bool :=
  match env.reqPerm with
  | none => .error (s, [])
  | some granted =>
    let s := { s with hasPermission := some granted }
    if granted then .ok (true, s, [])
    else .ok (false, s, [.alert])

/-- `requestPermissions` with its `catch`: sets `hasPermission` to false,
alerts, and returns `false`. -/
def requestPermissions (env : REnv) (s : RecState) : Bool × RecState × List Ev :=
  match requestPermissionsBody env s with
  | .ok r => r
  | .error (s, t) => (false, { s with hasPermission := some false }, t ++ [.alert])

/-- `requestPermissions` under exception semantics: an `.error` result would
be an exception escaping to the caller. -/
def requestPermissionsE (env : REnv) (s : RecState) : RecRun Bool :=
  match requestPermissionsBody env s with
  | .ok r => .ok r
  | .error (s, t) => .ok (false, { s with hasPermission := some false }, t ++ [.alert])

/-- Body of `startRecording` (lines 52-82): permission gate, switch the
audio mode to recording, create the capture handle, reset the duration
counter to 0 and start the 1-second interval. -/
def startRecordingBody (env : REnv) (s : RecState) : RecRun Unit :=
  let step :=
    if s.hasPermission = some true then (true, s, ([] : List Ev))
    else requestPermissions env s
  if step.1 = false then .ok ((), step.2.1, step.2.2)
  else
    let s := step.2.1
    let t := step.2.2
    if env.setModeRec = false then .error (s, t)
    else
      let t := t ++ [.setAudioMode true]
      match env.createRec with
      | none => .error (s, t)
      | some uri =>
        let t := t ++ [.createRecording]
        let s := { s with recordingRef := some ⟨uri⟩, isRecording := true,
                          recordingDuration := 0, intervalActive := true }
        .ok ((), s, t)

/-- `startRecording` with its `catch`: alert and `setIsRecording(false)`. -/
def startRecording (env : REnv) (s : RecState) : Unit × RecState × List Ev :=
  match startRecordingBody env s with
  | .ok r => r
  | .error (s, t) => ((), { s with isRecording := false }, t ++ [.alert])

/-- `startRecording` under exception semantics. -/
def startRecordingE (env : REnv) (s : RecState) : RecRun Unit :=
  match startRecordingBody env s with
  | .ok r => .ok r
  | .error (s, t) => .ok ((), { s with isRecording := false }, t ++ [.alert])

/-- Body of `stopRecording` (lines 84-109): null guard, clear the flag and
the interval, finalize the capture, set the neutral audio mode, read the
URI, clear the handle, and return the `(uri, duration)` pair. -/
def stopRecordingBody (env : REnv) (s : RecState) :
    RecRun (Option (Option String × Nat)) :=
  match s.recordingRef with
  | none => .ok (none, s, [])
  | some h =>
    let s := { s with isRecording := false, intervalActive := false }
    if env.stopUnload = false then .error (s, [])
    else
      let t := [Ev.stopAndUnload]
      if env.setModeNeutral = false then .error (s, t)
      else
        let t := t ++ [.setAudioMode false]
        let s := { s with recordingRef := none }
        .ok (some (h.uri, s.recordingDuration), s, t)

/-- `stopRecording` with its `catch`: alert and return null. -/
def stopRecording (env : REnv) (s : RecState) :
    Option (Option String × Nat) × RecState × List Ev :=
  match stopRecordingBody env s with
  | .ok r => r
  | .error (s, t) => (none, s, t ++ [.alert])

/-- `stopRecording` under exception semantics. -/
def stopRecordingE (env : REnv) (s : RecState) :
    RecRun (Option (Option String × Nat)) :=
  match stopRecordingBody env s with
  | .ok r => .ok r
  | .error (s, t) => .ok (none, s, t ++ [.alert])

/-- Body of `cancelRecording` (lines 111-130): same teardown as stop but the
URI is discarded and the duration counter is reset to 0. -/
def cancelRecordingBody (env : REnv) (s : RecState) : RecRun Unit :=
  match s.recordingRef with
  | none => .ok ((), s, [])
  | some _ =>
    let s := { s with isRecording := false, intervalActive := false }
    if env.stopUnload = false then .error (s, [])
    else
      let t := [Ev.stopAndUnload]
      if env.setModeNeutral = false then .error (s, t)
      else
        let t := t ++ [.setAudioMode false]
        let s := { s with recordingRef := none, recordingDuration := 0 }
        .ok ((), s, t)

/-- `cancelRecording` with its `catch` (log only, no alert). -/
def cancelRecording (env : REnv) (s : RecState) : Unit × RecState × List Ev :=
  match cancelRecordingBody env s with
  | .ok r => r
  | .error (s, t) => ((), s, t)

/-- `cancelRecording` under exception semantics. -/
def cancelRecordingE (env : REnv) (s : RecState) : RecRun Unit :=
  match cancelRecordingBody env s with
  | .ok r => .ok r
  | .error (s, t) => .ok ((), s, t)

/-- One firing of the 1-second interval callback `prev => prev + 1`;
the interval only fires while it is installed. -/
def tick (s : RecState) : RecState :=
  if s.intervalActive then { s with recordingDuration := s.recordingDuration + 1 } else s

/-- `VoiceChatState` of `useVoiceChat.ts` line 8. -/
inductive VState where
  | idle
  | listening
  | processing
  | speaking
  deriving DecidableEq, Repr

/-- State of `useVoiceChat`: its four `useState` fields, the two refs
(`soundRef`, `speechTimeoutRef`) and the nested recorder state.  No code
path ever assigns `soundRef.current` a sound, so its payload is opaque. -/
structure VCState where
  vstate : VState
  transcript : String
  aiResponse : String
  isPlaying : Bool
  sound : Option Unit
  speechTimeout : Bool
  audioRecorder : RecState
  deriving DecidableEq, Repr

/-- Outcomes of the voice-chat layer's own platform calls: the recorder
environment plus `sound.stopAsync` / `sound.unloadAsync`. -/
structure VEnv where
  recorder : REnv
  soundStop : Bool
  soundUnload : Bool
  deriving DecidableEq, Repr

/-- The hard-coded assistant reply used by `stopListening` (line 67). -/
def mockResponse : String :=
  "Hola, soy tu asistente automatizador. Con gusto te ayudaré a agendar las tareas que quieras!"

/-- `playAIResponse` (lines 94-117): `Speech.stop()`, a 300 ms delay, then
`Speech.speak`.  The registered completion callbacks are modelled
separately by `playAIResponseCallbacks`; they fire after this returns. -/
def playAIResponse (text : String) (s : VCState) : VCState × List Ev :=
  (s, [.speechStop, .wait 300, .speak text])

/-- The completion callbacks `useVoiceChat` registers with `Speech.speak`
inside `playAIResponse`, each as the state update it performs when the
speech engine fires it; `none` means the callback is not registered. -/
structure SpeechCallbacks where
  onStart : Option (VCState → VCState)
  onDone : Option (VCState → VCState)
  onStopped : Option (VCState → VCState)
  onError : Option (VCState → VCState)

/-- The options object of the `Speech.speak` call at lines 101-111:
`onStart` only logs, `onDone` and `onError` set the state to `idle`, and
no `onStopped` callback is passed. -/
def playAIResponseCallbacks : SpeechCallbacks where
  onStart := some (fun s => s)
  onDone := some (fun s => { s with vstate := .idle })
  onStopped := none
  onError := some (fun s => { s with vstate := .idle })

/-- JavaScript truthiness of the `result.uri` check at line 60: `getURI()`
may return null, and an empty string is also falsy. -/
def uriTruthy : Option String → Bool
  | none => false
  | some u => u != ""

/-- `forceAudioReset` (lines 119-143): `Speech.stop()`, then three neutral
`setAudioModeAsync` calls each followed by a 200 ms delay, then a 500 ms
settle delay; a rejection is caught after the failing call. -/
def forceAudioReset (env : REnv) : List Ev :=
  if env.setModeNeutral then
    [.speechStop, .setAudioMode false, .wait 200, .setAudioMode false, .wait 200,
     .setAudioMode false, .wait 200, .wait 500]
  else
    [.speechStop]

/-- `startListening` (lines 33-53): enter `listening`, clear the turn data,
start the recorder, and fire `forceAudioReset` without awaiting it.
`startRecording` catches all its failures, so the surrounding `catch`
(alert and back to `idle`) is dead code. -/
def startListening (env : VEnv) (s : VCState) : VCState × List Ev :=
  let s := { s with vstate := .listening, transcript := "", aiResponse := "" }
  let r := startRecording env.recorder s.audioRecorder
  ({ s with audioRecorder := r.2.1 }, r.2.2 ++ forceAudioReset env.recorder)

/-- `stopListening` (lines 55-92): enter `processing`, stop the recorder,
and on a truthy URI set the mocked reply, enter `speaking`, wait 500 ms
and play it; otherwise return to `idle`.  `stopRecording` catches all its
failures and the mocked processing cannot fail, so both `catch` blocks
(each returning to `idle`) are dead code. -/
def stopListening (env : VEnv) (s : VCState) : VCState × List Ev :=
  let s := { s with vstate := .processing }
  let r := stopRecording env.recorder s.audioRecorder
  let s := { s with audioRecorder := r.2.1 }
  let t := r.2.2
  match r.1 with
  | some (uri, _) =>
    if uriTruthy uri then
      let s := { s with transcript := "Audio procesado correctamente",
                        aiResponse := mockResponse, vstate := .speaking }
      let p := playAIResponse mockResponse s
      (p.1, t ++ [.wait 500] ++ p.2)
    else
      ({ s with vstate := .idle }, t)
  | none => ({ s with vstate := .idle }, t)

/-- Body of `cancelVoiceChat` (lines 189-222): cancel the recorder if it is
recording (that call swallows its own errors), stop and unload any loaded
sound (these two awaits can reject into the outer `catch`), stop speech if
`isPlaying`, clear the timeout, and reset every session field. -/
def cancelVoiceChatBody (env : VEnv) (s : VCState) :
    Except (VCState × List Ev) (VCState × List Ev) :=
  let r :=
    if s.audioRecorder.isRecording then
      let c := cancelRecording env.recorder s.audioRecorder
      (c.2.1, c.2.2)
    else (s.audioRecorder, ([] : List Ev))
  let s := { s with audioRecorder := r.1 }
  let t := r.2
  let finish : VCState → List Ev → VCState × List Ev := fun s t =>
    let t := if s.isPlaying then t ++ [Ev.speechStop] else t
    ({ s with speechTimeout := false, isPlaying := false, vstate := .idle,
              transcript := "", aiResponse := "" }, t)
  match s.sound with
  | some _ =>
    if env.soundStop = false then .error (s, t)
    else
      let t := t ++ [Ev.soundStop]
      if env.soundUnload = false then .error (s, t)
      else
        let t := t ++ [Ev.soundUnload]
        .ok (finish { s with sound := none } t)
  | none => .ok (finish s t)

/-- `cancelVoiceChat` with its `catch` (log only): a teardown rejection
skips the remaining resets. -/
def cancelVoiceChat (env : VEnv) (s : VCState) : VCState × List Ev :=
  match cancelVoiceChatBody env s with
  | .ok r => r
  | .error r => r

/-- `continueTalking` (lines 224-228). -/
def continueTalking (s : VCState) : VCState :=
  { s with vstate := .idle, transcript := "", aiResponse := "" }

/-- `stopSpeech` (lines 230-234): `Speech.stop()` and straight to `idle`,
with no check of `isPlaying` or of the current state. -/
def stopSpeech (s : VCState) : VCState × List Ev :=
  ({ s with vstate := .idle }, [.speechStop])

/-- Recorder state at mount (`useState(false)`, `useState(0)`,
`useState(null)`, null refs). -/
def initRec : RecState where
  isRecording := false
  recordingDuration := 0
  hasPermission := none
  recordingRef := none
  intervalActive := false

/-- Voice-chat session state at mount. -/
def initVC : VCState where
  vstate := .idle
  transcript := ""
  aiResponse := ""
  isPlaying := false
  sound := none
  speechTimeout := false
  audioRecorder := initRec

/-- States reachable from mount through the operations the hook exposes,
under arbitrary platform outcomes, including the interval ticks. -/
inductive Reach : VCState → Prop where
  | init : Reach initVC
  | startL {s} (env : VEnv) : Reach s → Reach (startListening env s).1
  | stopL {s} (env : VEnv) : Reach s → Reach (stopListening env s).1
  | cancel {s} (env : VEnv) : Reach s → Reach (cancelVoiceChat env s).1
  | cont {s} : Reach s → Reach (continueTalking s)
  | stopSp {s} : Reach s → Reach (stopSpeech s).1
  | tickStep {s} : Reach s → Reach { s with audioRecorder := tick s.audioRecorder }

/-! ### Derived notions and concrete scenarios used by the theorems -/

/-- The recorder-handle invariant of the spec: a handle exists iff
`isRecording` is set. -/
def recInv (s : RecState) : Prop := s.recordingRef.isSome = s.isRecording

/-- Test for a `Speech.speak` call in a trace. -/
def isSpeak : Ev → Bool
  | .speak _ => true
  | _ => false

/-- Test for a settle delay in a trace. -/
def isWait : Ev → Bool
  | .wait _ => true
  | _ => false

/-- The settle-before-playback ordering on a trace: a completed
`stopAndUnloadAsync`, then the neutral audio mode, then a settle delay,
then a `speak`, and moreover every `speak` in the trace comes after that
neutral-mode call. -/
def settleBeforeSpeak (t : List Ev) : Prop :=
  ∃ i j k l : Fin t.length, i < j ∧ j < k ∧ k < l ∧
    t.get i = .stopAndUnload ∧ t.get j = .setAudioMode false ∧
    isWait (t.get k) = true ∧ isSpeak (t.get l) = true ∧
    ∀ m : Fin t.length, isSpeak (t.get m) = true → j < m

/-- Platform environment in which every call resolves. -/
def envAll : VEnv where
  recorder := { reqPerm := some true, setModeRec := true,
                createRec := some (some "file:///rec.m4a"),
                stopUnload := true, setModeNeutral := true }
  soundStop := true
  soundUnload := true

/-- Platform environment in which `stopAndUnloadAsync` rejects. -/
def envStopFails : VEnv where
  recorder := { reqPerm := some true, setModeRec := true,
                createRec := some (some "file:///rec.m4a"),
                stopUnload := false, setModeNeutral := true }
  soundStop := true
  soundUnload := true

/-- Platform environment in which the permission prompt resolves denied. -/
def envDeny : VEnv where
  recorder := { reqPerm := some false, setModeRec := true,
                createRec := some (some "file:///rec.m4a"),
                stopUnload := true, setModeNeutral := true }
  soundStop := true
  soundUnload := true

/-- A recorder state in the middle of a 3-second recording. -/
def recActive : RecState where
  isRecording := true
  recordingDuration := 3
  hasPermission := some true
  recordingRef := some ⟨some "file:///rec.m4a"⟩
  intervalActive := true

/-- A session in the `listening` state with that active recording. -/
def vcListening : VCState :=
  { initVC with vstate := .listening, audioRecorder := recActive }

/-- The session reached from mount by `startListening` when every platform
call resolves: `listening`, with an active recording handle. -/
def vcRecording : VCState := (startListening envAll initVC).1

/-! ### Claims -/

/-- Claim C4, counterexample: the options `playAIResponse` passes to
`Speech.speak` register no `onStopped` callback at all, so it is false
that each of the three completion callbacks transitions the session to
`idle` — a stopped playback fires no registered callback. -/
theorem c4_no_onStopped_registered : playAIResponseCallbacks.onStopped = none := rfl

/-- Claim C4 (amended): of the completion callbacks registered by
`playAIResponse`, `onDone` and `onError` both transition the session state
to `idle`; no `onStopped` callback is registered, so leaving `speaking`
after an external stop relies on the stopping path itself. -/
theorem c4_done_and_error_reach_idle :
    (∃ f, playAIResponseCallbacks.onDone = some f ∧ ∀ s, (f s).vstate = .idle) ∧
    (∃ g, playAIResponseCallbacks.onError = some g ∧ ∀ s, (g s).vstate = .idle) ∧
    playAIResponseCallbacks.onStopped = none :=
  ⟨⟨_, rfl, fun _ => rfl⟩, ⟨_, rfl, fun _ => rfl⟩, rfl⟩

/-- Claim C5: under exception semantics, every recorder operation returns
normally for every input and every platform outcome — producing exactly
the result of the caught computation — so no exception crosses the
component boundary. -/
theorem c5_recorder_never_throws (env : REnv) (s : RecState) :
    requestPermissionsE env s = .ok (requestPermissions env s) ∧
    startRecordingE env s = .ok (startRecording env s) ∧
    stopRecordingE env s = .ok (stopRecording env s) ∧
    cancelRecordingE env s = .ok (cancelRecording env s) := by
  refine ⟨?_, ?_, ?_, ?_⟩
  · rcases h : requestPermissionsBody env s with ⟨s', t'⟩ | r <;>
      simp [requestPermissionsE, requestPermissions, h]
  · rcases h : startRecordingBody env s with ⟨s', t'⟩ | r <;>
      simp [startRecordingE, startRecording, h]
  · rcases h : stopRecordingBody env s with ⟨s', t'⟩ | r <;>
      simp [stopRecordingE, stopRecording, h]
  · rcases h : cancelRecordingBody env s with ⟨s', t'⟩ | r <;>
      simp [cancelRecordingE, cancelRecording, h]

/-- Claim C6: `stopRecording` called with no recording handle returns null,
leaves the recorder state untouched and performs no platform call. -/
theorem c6_stop_without_handle_is_noop (env : REnv) (s : RecState)
    (h : s.recordingRef = none) :
    stopRecording env s = (none, s, []) := by
  simp [stopRecording, stopRecordingBody, h]

/-- Claim C6, witness at the mount state. -/
theorem c6_witness :
    initRec.recordingRef = none ∧
    stopRecording envAll.recorder initRec = (none, initRec, []) :=
  ⟨rfl, c6_stop_without_handle_is_noop envAll.recorder initRec rfl⟩

/-- Claim C8: `stopSpeech`, from any session state whatsoever, emits
`Speech.stop()` and changes exactly the session state, to `idle`. -/
theorem c8_stopSpeech_always_idle (s : VCState) :
    (stopSpeech s).1 = { s with vstate := .idle } ∧
    (stopSpeech s).2 = [.speechStop] :=
  ⟨rfl, rfl⟩

/-- Claim C9: on a successful teardown of an existing handle,
`cancelRecording` resets the duration counter to 0 while `stopRecording`
returns the counter unchanged in its result pair, and the two teardowns
agree on every other recorder field. -/
theorem c9_cancel_resets_stop_reports (env : REnv) (s : RecState) (h : RecHandle)
    (href : s.recordingRef = some h)
    (hstop : env.stopUnload = true) (hneutral : env.setModeNeutral = true) :
    (cancelRecording env s).2.1.recordingDuration = 0 ∧
    (stopRecording env s).1 = some (h.uri, s.recordingDuration) ∧
    (stopRecording env s).2.1.recordingDuration = s.recordingDuration ∧
    (cancelRecording env s).2.1.isRecording = (stopRecording env s).2.1.isRecording ∧
    (cancelRecording env s).2.1.recordingRef = (stopRecording env s).2.1.recordingRef ∧
    (cancelRecording env s).2.1.intervalActive = (stopRecording env s).2.1.intervalActive ∧
    (cancelRecording env s).2.1.hasPermission = (stopRecording env s).2.1.hasPermission := by
  simp [cancelRecording, cancelRecordingBody, stopRecording, stopRecordingBody,
        href, hstop, hneutral]

/-- Claim C9, witness on a 3-second recording. -/
theorem c9_witness :
    (cancelRecording envAll.recorder recActive).2.1.recordingDuration = 0 ∧
    (stopRecording envAll.recorder recActive).1 = some (some "file:///rec.m4a", 3) ∧
    (cancelRecording envAll.recorder recActive).2.1.recordingRef
      = (stopRecording envAll.recorder recActive).2.1.recordingRef := by
  have h := c9_cancel_resets_stop_reports envAll.recorder recActive
    ⟨some "file:///rec.m4a"⟩ rfl rfl rfl
  exact ⟨h.1, h.2.1, h.2.2.2.2.1⟩

/-- Claim C1: within a voice turn whose recording stop succeeds (handle
present, truthy URI, the finalize and audio-mode calls resolve), the trace
of `stopListening` is exactly the settle sequence followed by playback —
stop the capture, force the neutral audio mode, settle delay, then the
speak — and in particular every `speak` call comes strictly after the
neutral audio mode was reached. -/
theorem c1_settle_precedes_speak (env : VEnv) (s : VCState) (h : RecHandle)
    (href : s.audioRecorder.recordingRef = some h) (huri : uriTruthy h.uri = true)
    (hstop : env.recorder.stopUnload = true)
    (hneutral : env.recorder.setModeNeutral = true) :
    (stopListening env s).2 =
      [.stopAndUnload, .setAudioMode false, .wait 500, .speechStop, .wait 300,
       .speak mockResponse] ∧
    settleBeforeSpeak (stopListening env s).2 := by
  have ht : (stopListening env s).2 =
      [.stopAndUnload, .setAudioMode false, .wait 500, .speechStop, .wait 300,
       .speak mockResponse] := by
    simp [stopListening, stopRecording, stopRecordingBody, playAIResponse,
          href, hstop, hneutral, huri]
  refine ⟨ht, ?_⟩
  rw [ht]
  unfold settleBeforeSpeak
  decide

/-- Claim C1, witness: a listening session holding a 3-second recording. -/
theorem c1_witness :
    vcListening.audioRecorder.recordingRef = some ⟨some "file:///rec.m4a"⟩ ∧
    settleBeforeSpeak (stopListening envAll vcListening).2 :=
  ⟨rfl, (c1_settle_precedes_speak envAll vcListening ⟨some "file:///rec.m4a"⟩
      rfl (by decide) rfl rfl).2⟩

/-- One interval firing adds one second while the interval is installed and
touches nothing else of the recorder state. -/
theorem tick_active (s : RecState) (h : s.intervalActive = true) :
    tick s = { s with recordingDuration := s.recordingDuration + 1 } := by
  simp [tick, h]

/-- Iterated ticks on a state with the interval installed add their count. -/
theorem tick_iterate (n : Nat) (s : RecState) (h : s.intervalActive = true) :
    tick^[n] s = { s with recordingDuration := s.recordingDuration + n } := by
  induction n generalizing s with
  | zero => simp
  | succ n ih =>
      rw [Function.iterate_succ_apply, tick_active s h,
          ih { s with recordingDuration := s.recordingDuration + 1 } h]
      simp only [RecState.mk.injEq, and_true, true_and]
      omega

/-- Claim C7: a successful `startRecording` leaves the duration counter at
0 with the interval installed; each tick of the installed interval adds
exactly 1; and stopping after `n` ticks reports duration `n` in the
returned result pair. -/
theorem c7_duration_counts_ticks (env env2 : REnv) (s : RecState) (n : Nat)
    (u : Option String)
    (hperm : s.hasPermission = some true)
    (hmode : env.setModeRec = true) (hcreate : env.createRec = some u)
    (hstop : env2.stopUnload = true) (hneutral : env2.setModeNeutral = true) :
    (startRecording env s).2.1.recordingDuration = 0 ∧
    (startRecording env s).2.1.intervalActive = true ∧
    (∀ s' : RecState, s'.intervalActive = true →
      (tick s').recordingDuration = s'.recordingDuration + 1) ∧
    (stopRecording env2 (tick^[n] (startRecording env s).2.1)).1 = some (u, n) := by
  have hs1 : (startRecording env s).2.1 =
      { s with recordingRef := some ⟨u⟩, isRecording := true,
               recordingDuration := 0, intervalActive := true } := by
    simp [startRecording, startRecordingBody, hperm, hmode, hcreate]
  refine ⟨by rw [hs1], by rw [hs1], fun s' h => by rw [tick_active s' h], ?_⟩
  rw [hs1, tick_iterate n _ rfl]
  simp [stopRecording, stopRecordingBody, hstop, hneutral]

/-- Claim C7, witness: the spec scenario start → 3 ticks → stop reports 3. -/
theorem c7_witness :
    (stopRecording envAll.recorder
        (tick^[3] (startRecording envAll.recorder
          { initRec with hasPermission := some true }).2.1)).1
      = some (some "file:///rec.m4a", 3) :=
  (c7_duration_counts_ticks envAll.recorder envAll.recorder
    { initRec with hasPermission := some true } 3 (some "file:///rec.m4a")
    rfl rfl rfl rfl rfl).2.2.2

/-- Claim C10: when permission is not already granted and the prompt
resolves denied, `startRecording` returns normally (no exception crosses
to the caller) without creating a handle, and `startListening` therefore
ends with the session still `listening`, `isRecording` false and no
recording in progress. -/
theorem c10_denied_permission_stays_listening (env : VEnv) (s : VCState)
    (hperm : s.audioRecorder.hasPermission ≠ some true)
    (hdeny : env.recorder.reqPerm = some false)
    (href : s.audioRecorder.recordingRef = none)
    (hrec : s.audioRecorder.isRecording = false) :
    startRecordingE env.recorder s.audioRecorder
      = .ok (startRecording env.recorder s.audioRecorder) ∧
    (startRecording env.recorder s.audioRecorder).2.1.recordingRef = none ∧
    (startListening env s).1.vstate = .listening ∧
    (startListening env s).1.audioRecorder.isRecording = false ∧
    (startListening env s).1.audioRecorder.recordingRef = none := by
  have hbody : startRecordingBody env.recorder s.audioRecorder =
      .ok ((), { s.audioRecorder with hasPermission := some false }, [.alert]) := by
    simp [startRecordingBody, requestPermissions, requestPermissionsBody, hperm, hdeny]
  refine ⟨?_, ?_, ?_, ?_, ?_⟩ <;>
    simp [startRecordingE, startRecording, startListening, hbody, href, hrec]

/-- Claim C10, witness: denial at the mount state. -/
theorem c10_witness :
    (startRecording envDeny.recorder initVC.audioRecorder).2.1.recordingRef = none ∧
    (startListening envDeny initVC).1.vstate = .listening ∧
    (startListening envDeny initVC).1.audioRecorder.isRecording = false := by
  have h := c10_denied_permission_stays_listening envDeny initVC
    (by decide) rfl rfl rfl
  exact ⟨h.2.1, h.2.2.1, h.2.2.2.1⟩

/-- Claim C3, counterexample: from the recorder state of a successful
`startRecording` (which satisfies the handle/flag equivalence), a
`stopRecording` whose `stopAndUnloadAsync` rejects reaches its catch after
`setIsRecording(false)` but before `recordingRef.current = null`, leaving
a handle with `isRecording` false — the equivalence is broken on this
error path. -/
theorem c3_counterexample :
    recInv (startRecording envAll.recorder { initRec with hasPermission := some true }).2.1 ∧
    ¬ recInv (stopRecording envStopFails.recorder
        (startRecording envAll.recorder { initRec with hasPermission := some true }).2.1).2.1 ∧
    (stopRecording envStopFails.recorder
        (startRecording envAll.recorder { initRec with hasPermission := some true }).2.1).2.1.isRecording
      = false ∧
    (stopRecording envStopFails.recorder
        (startRecording envAll.recorder { initRec with hasPermission := some true }).2.1).2.1.recordingRef
      ≠ none := by
  refine ⟨?_, ?_, ?_, ?_⟩ <;> first
    | decide
    | (unfold recInv; decide)

/-- Claim C3 (amended): every recorder operation whose platform calls
resolve preserves the handle/flag equivalence, whatever the outcome of the
permission prompt; so do the interval ticks.  (A platform rejection during
teardown can break it, as the counterexample shows.) -/
theorem c3_inv_preserved_on_success (env : REnv) (s : RecState)
    (hmode : env.setModeRec = true) (hcreate : env.createRec.isSome = true)
    (hstop : env.stopUnload = true) (hneutral : env.setModeNeutral = true)
    (hinv : recInv s) :
    recInv (startRecording env s).2.1 ∧ recInv (stopRecording env s).2.1 ∧
    recInv (cancelRecording env s).2.1 ∧ recInv (tick s) := by
  rcases hc : env.createRec with _ | u
  · rw [hc] at hcreate; simp at hcreate
  refine ⟨?_, ?_, ?_, ?_⟩
  · by_cases hp : s.hasPermission = some true
    · simp [recInv, startRecording, startRecordingBody, hp, hmode, hc]
    · rcases hr : env.reqPerm with _ | b
      · simpa [recInv, startRecording, startRecordingBody, requestPermissions,
               requestPermissionsBody, hp, hr] using hinv
      · cases b
        · simpa [recInv, startRecording, startRecordingBody, requestPermissions,
                 requestPermissionsBody, hp, hr] using hinv
        · simp [recInv, startRecording, startRecordingBody, requestPermissions,
                requestPermissionsBody, hp, hr, hmode, hc]
  · rcases hh : s.recordingRef with _ | h
    · rw [recInv, hh] at hinv
      simpa [recInv, stopRecording, stopRecordingBody, hh] using hinv
    · simp [recInv, stopRecording, stopRecordingBody, hh, hstop, hneutral]
  · rcases hh : s.recordingRef with _ | h
    · rw [recInv, hh] at hinv
      simpa [recInv, cancelRecording, cancelRecordingBody, hh] using hinv
    · simp [recInv, cancelRecording, cancelRecordingBody, hh, hstop, hneutral]
  · by_cases hi : s.intervalActive <;> simpa [recInv, tick, hi] using hinv

/-- Claim C3, witness at the mount state under an all-success environment. -/
theorem c3_witness :
    recInv (startRecording envAll.recorder initRec).2.1 ∧
    recInv (stopRecording envAll.recorder initRec).2.1 ∧
    recInv (cancelRecording envAll.recorder initRec).2.1 ∧
    recInv (tick initRec) :=
  c3_inv_preserved_on_success envAll.recorder initRec rfl rfl rfl rfl
    (by unfold recInv; decide)

/-- `startListening` never touches `soundRef`. -/
theorem startListening_sound (env : VEnv) (s : VCState) :
    (startListening env s).1.sound = s.sound := by
  simp [startListening]

/-- `stopListening` never touches `soundRef`. -/
theorem stopListening_sound (env : VEnv) (s : VCState) :
    (stopListening env s).1.sound = s.sound := by
  rcases h : (stopRecording env.recorder s.audioRecorder).1 with _ | ⟨uri, d⟩ <;>
    simp [stopListening, playAIResponse, h]
  by_cases hu : uriTruthy uri <;> simp [hu]

/-- With no sound loaded, `cancelVoiceChat` cannot hit its only throwing
awaits, so it runs to completion and resets the whole session. -/
theorem cancelVoiceChat_sound_none (env : VEnv) (s : VCState) (h : s.sound = none) :
    (cancelVoiceChat env s).1 =
      { s with audioRecorder :=
                 (if s.audioRecorder.isRecording then
                    (cancelRecording env.recorder s.audioRecorder).2.1
                  else s.audioRecorder),
               speechTimeout := false, isPlaying := false, vstate := .idle,
               transcript := "", aiResponse := "" } := by
  by_cases hr : s.audioRecorder.isRecording <;>
    simp [cancelVoiceChat, cancelVoiceChatBody, h, hr]

/-- No code path of `useVoiceChat` ever assigns `soundRef.current`, so every
reachable session state has no sound loaded. -/
theorem sound_none_of_reach {s : VCState} (h : Reach s) : s.sound = none := by
  induction h with
  | init => rfl
  | startL env _ ih => rw [startListening_sound]; exact ih
  | stopL env _ ih => rw [stopListening_sound]; exact ih
  | cancel env _ ih => rw [cancelVoiceChat_sound_none _ _ ih]; exact ih
  | cont _ ih => exact ih
  | stopSp _ ih => exact ih
  | tickStep _ ih => exact ih

/-- Claim C2, counterexample: from the reachable session in which a
recording is active, a `cancelVoiceChat` whose `stopAndUnloadAsync`
rejects still reaches `idle`, but the recording handle is *not* released:
the teardown of the recorder is not unconditional. -/
theorem c2_counterexample :
    Reach vcRecording ∧
    vcRecording.audioRecorder.isRecording = true ∧
    (cancelVoiceChat envStopFails vcRecording).1.audioRecorder.recordingRef ≠ none :=
  ⟨Reach.startL envAll Reach.init, by decide, by decide⟩

/-- Claim C2 (amended): from every reachable session state, under every
platform outcome, `cancelVoiceChat` ends with `state = idle`, empty
`transcript` and `aiResponse`, playback cleared (`isPlaying` false, no
sound loaded); the recording handle is additionally released provided it
belongs to an active recording (or none exists) and the teardown platform
calls resolve — a rejecting teardown can leave the handle behind. -/
theorem c2_cancel_always_resets (env : VEnv) (s : VCState) (hs : Reach s) :
    (cancelVoiceChat env s).1.vstate = .idle ∧
    (cancelVoiceChat env s).1.transcript = "" ∧
    (cancelVoiceChat env s).1.aiResponse = "" ∧
    (cancelVoiceChat env s).1.isPlaying = false ∧
    (cancelVoiceChat env s).1.sound = none ∧
    ((s.audioRecorder.recordingRef = none ∨ s.audioRecorder.isRecording = true) →
      env.recorder.stopUnload = true → env.recorder.setModeNeutral = true →
      (cancelVoiceChat env s).1.audioRecorder.recordingRef = none) := by
  have hsound : s.sound = none := sound_none_of_reach hs
  rw [cancelVoiceChat_sound_none env s hsound]
  refine ⟨rfl, rfl, rfl, rfl, hsound, ?_⟩
  rintro (hrefnone | hrec) hstop hneutral
  · by_cases hr : s.audioRecorder.isRecording <;>
      simp [hr, cancelRecording, cancelRecordingBody, hrefnone]
  · rcases hh : s.audioRecorder.recordingRef with _ | hdl <;>
      simp [hrec, cancelRecording, cancelRecordingBody, hh, hstop, hneutral]

/-- Claim C2, witness at the mount state. -/
theorem c2_witness :
    (cancelVoiceChat envAll initVC).1.vstate = .idle ∧
    (cancelVoiceChat envAll initVC).1.transcript = "" ∧
    (cancelVoiceChat envAll initVC).1.aiResponse = "" ∧
    (cancelVoiceChat envAll initVC).1.isPlaying = false ∧
    (cancelVoiceChat envAll initVC).1.sound = none ∧
    ((initVC.audioRecorder.recordingRef = none ∨ initVC.audioRecorder.isRecording = true) →
      envAll.recorder.stopUnload = true → envAll.recorder.setModeNeutral = true →
      (cancelVoiceChat envAll initVC).1.audioRecorder.recordingRef = none) :=
  c2_cancel_always_resets envAll initVC Reach.init

end Automatizor
